import Mathlib

/-!
Verification of the `bitgravityzone` GravityZone JSON-RPC client core
(`bitgravityzone/client.py` and `bitgravityzone/exceptions.py`):
the dispatch routine `GravityZone.call`, the pagination generator
`GravityZone.paginate`, and the error-classification routine `raise_error`.

The embedding models JSON values as an inductive type, Python dicts as
association lists with Python's `dict.update` semantics, the HTTP transport
as an oracle function from request to outcome, and Python exceptions as an
inductive of the error kinds the code can actually raise (both the
library's own `GravityZoneException` hierarchy and the raw `KeyError` /
`json.JSONDecodeError` / `httpx` exceptions that escape it).
-/

/-- A JSON value, as produced by `resp.json()` / sent via `post(json=...)`.
Numbers are modelled as integers (the API's envelope fields are integral). -/
inductive Json where
  | null
  | bool (b : Bool)
  | num (n : Int)
  | str (s : String)
  | arr (elems : List Json)
  | obj (fields : List (String × Json))

/-- Python `dict` lookup `d[k]` / `d.get(k)` on an association list with
insertion order preserved: first binding of the key wins. -/
def dictLookup (d : List (String × Json)) (k : String) : Option Json :=
  match d with
  | [] => none
  | (k', v) :: tl => if k' = k then some v else dictLookup tl k

/-- Python `d[k] = v`: overwrite the binding in place when the key exists
(keeping insertion order), append it otherwise. -/
def dictSet (d : List (String × Json)) (k : String) (v : Json) :
    List (String × Json) :=
  if d.any (fun p => p.1 = k) then
    d.map (fun p => if p.1 = k then (k, v) else p)
  else
    d ++ [(k, v)]

/-- Python `d.update(kvs)`: set each key/value pair in turn. -/
def dictUpdate (d : List (String × Json)) (kvs : List (String × Json)) :
    List (String × Json) :=
  kvs.foldl (fun acc kv => dictSet acc kv.1 kv.2) d

/-- `j[k]` / `j.get(k)` on a JSON value: a lookup when `j` is an object,
nothing otherwise. -/
def Json.getKey (j : Json) (k : String) : Option Json :=
  match j with
  | .obj fields => dictLookup fields k
  | _ => none

mutual

/-- Python `==` on JSON values: structural value equality. -/
def Json.eqb : Json → Json → Bool
  | .null, .null => true
  | .bool a, .bool b => a == b
  | .num a, .num b => a == b
  | .str a, .str b => a == b
  | .arr xs, .arr ys => Json.eqbArr xs ys
  | .obj xs, .obj ys => Json.eqbObj xs ys
  | _, _ => false

/-- Python `==` on JSON arrays, elementwise. -/
def Json.eqbArr : List Json → List Json → Bool
  | [], [] => true
  | x :: xs, y :: ys => Json.eqb x y && Json.eqbArr xs ys
  | _, _ => false

/-- Python `==` on JSON objects (dicts rendered as ordered pair lists). -/
def Json.eqbObj : List (String × Json) → List (String × Json) → Bool
  | [], [] => true
  | (k, v) :: xs, (l, w) :: ys => k == l && Json.eqb v w && Json.eqbObj xs ys
  | _, _ => false

end

/-- Python `str.split(sep)` on the underlying character list: splits at every
occurrence of `sep`, keeping empty groups, so that splitting the empty string
gives `[[]]` (Python: `''.split('/') == ['']`). -/
def pySplitChars (sep : Char) : List Char → List (List Char)
  | [] => [[]]
  | c :: cs =>
    match pySplitChars sep cs with
    | [] => [[]]
    | g :: gs => if c = sep then [] :: g :: gs else (c :: g) :: gs

/-- Python `str.split(sep)` for a one-character separator. -/
def pySplit (s : String) (sep : Char) : List String :=
  (pySplitChars sep s.data).map (fun cs => String.mk cs)

/-- Python `str.split(sep)[-1]`: the substring after the last separator. -/
def pyLastSplit (s : String) (sep : Char) : String :=
  (pySplit s sep).getLastD ""

/-- An outgoing HTTP request as `httpx` sees it: the path passed to
`Client.post` (relative to the base URL) and the JSON body sent with
`json=body`.  `request.content` round-trips to exactly this body via
`json.loads`. -/
structure HttpRequest where
  path : String
  body : Json

/-- The full URL path of the request as `request.url.path` reports it: the
client's base URL (`access_url` + `'v1.0/jsonrpc/'`) merged with the
relative path. -/
def HttpRequest.urlPath (req : HttpRequest) : String :=
  "/v1.0/jsonrpc/" ++ req.path

/-- An HTTP response: status code and body.  `body = none` models a body
that is not parseable JSON, on which `response.json()` raises. -/
structure HttpResponse where
  status : Nat
  body : Option Json

/-- A failure of the HTTP exchange itself, raised by `httpx` from inside
`Client.post` (before any status checking): the request timed out, or a
transport-level error occurred. -/
inductive TransportFailure where
  | timeout
  | connectError

/-- The synchronous HTTP primitive: given a request and a timeout (seconds),
either a response or a transport failure. -/
def Transport : Type := HttpRequest → Nat → Except TransportFailure HttpResponse

/-- The `{endpoint, method, params}` context attached to the classified
`ClientError` subclasses by `raise_error`. -/
structure ErrInfo where
  endpoint : String
  method : Json
  params : Json

/-- The exceptions a dispatch can raise.  The first five are the library's
own taxonomy from `exceptions.py` (subclasses of `GravityZoneException`);
the rest are raw exceptions from the standard library / `httpx` that the
client code lets escape: `KeyError`/`TypeError` from a failed subscript
(`lookupError`), `json.JSONDecodeError` from an unparseable body, a
`TypeError` from iterating a non-list, and the `httpx` transport errors. -/
inductive PyError where
  | authenticationError (msg : Json) (info : ErrInfo)
  | authorizationError (msg : Json) (info : ErrInfo)
  | methodNotFound (msg : Json) (info : ErrInfo)
  | invalidParams (msg : Json) (info : ErrInfo)
  | gravityZoneException (msg : Json)
  | lookupError (key : String)
  | jsonDecodeError
  | typeError
  | httpxTimeout
  | httpxConnectError

/-- Whether the exception belongs to the client's typed error taxonomy,
i.e. is an instance of `GravityZoneException` from `exceptions.py`. -/
def PyError.inTaxonomy : PyError → Bool
  | .authenticationError _ _ => true
  | .authorizationError _ _ => true
  | .methodNotFound _ _ => true
  | .invalidParams _ _ => true
  | .gravityZoneException _ => true
  | _ => false

/-- The `{endpoint, method, params}` context of a classified error, when it
carries one (`GravityZoneException` itself and the raw exceptions do not). -/
def PyError.info : PyError → Option ErrInfo
  | .authenticationError _ i => some i
  | .authorizationError _ i => some i
  | .methodNotFound _ i => some i
  | .invalidParams _ i => some i
  | _ => none

/-- `exceptions.raise_error(request, response)`: decode the response body's
`error` object and the request body, build the `{endpoint, method, params}`
context (with `endpoint = request.url.path.split('/')[-1]`), read
`err['data']['details']`, then classify: HTTP 401, HTTP 403, RPC code
-32601, RPC code -32602, generic fallback — in that order.  Each failing
subscript along the way raises the corresponding raw lookup error, exactly
as the uncaught `KeyError` would in Python; an unparseable response body
raises the JSON decode error from `response.json()`. -/
def raise_error (request : HttpRequest) (response : HttpResponse) : PyError :=
  match response.body with
  | none => .jsonDecodeError
  | some respJson =>
    match respJson.getKey "error" with
    | none => .lookupError "error"
    | some err =>
      match request.body.getKey "method" with
      | none => .lookupError "method"
      | some methodJson =>
        match request.body.getKey "params" with
        | none => .lookupError "params"
        | some paramsJson =>
          let info : ErrInfo :=
            ⟨pyLastSplit request.urlPath '/', methodJson, paramsJson⟩
          match err.getKey "data" with
          | none => .lookupError "data"
          | some dataJson =>
            match dataJson.getKey "details" with
            | none => .lookupError "details"
            | some msg =>
              if response.status = 401 then
                .authenticationError msg info
              else if response.status = 403 then
                .authorizationError msg info
              else
                match err.getKey "code" with
                | none => .lookupError "code"
                | some code =>
                  if code.eqb (.num (-32601)) then .methodNotFound msg info
                  else if code.eqb (.num (-32602)) then .invalidParams msg info
                  else .gravityZoneException msg

/-- The JSON-RPC envelope built by `GravityZone.call`:
`{'id': 1, 'jsonrpc': '2.0', 'method': method, 'params': params}`. -/
def GravityZone.mkBody (method : String) (params : List (String × Json)) :
    Json :=
  .obj [("id", .num 1), ("jsonrpc", .str "2.0"), ("method", .str method),
        ("params", .obj params)]

/-- The request path `'/'.join(filter(None, (endpoint, service)))`. -/
def GravityZone.mkPath (endpoint : String) (service : Option String) :
    String :=
  String.intercalate "/"
    ((endpoint :: (match service with | none => [] | some s => [s])).filter
      (fun x => x ≠ ""))

/-- The HTTP request `GravityZone.call` posts. -/
def GravityZone.mkRequest (endpoint method : String)
    (params : List (String × Json)) (service : Option String) : HttpRequest :=
  ⟨GravityZone.mkPath endpoint service, GravityZone.mkBody method params⟩

/-- `GravityZone.call(endpoint, method, params, service, timeout)`: POST the
envelope; a transport failure from inside `post` propagates raw (the
`try` only wraps `raise_for_status`).  A non-2xx status is classified by
`raise_error`.  Otherwise return `resp.json()['result']`; when `'result'`
is missing the `KeyError` is caught and the response is classified by
`raise_error`, but an unparseable body raises the JSON decode error
uncaught. -/
def GravityZone.call (transport : Transport) (endpoint method : String)
    (params : List (String × Json)) (service : Option String)
    (timeout : Nat) : Except PyError Json :=
  let req := GravityZone.mkRequest endpoint method params service
  match transport req timeout with
  | .error .timeout => .error .httpxTimeout
  | .error .connectError => .error .httpxConnectError
  | .ok resp =>
    if 200 ≤ resp.status ∧ resp.status ≤ 299 then
      match resp.body with
      | none => .error .jsonDecodeError
      | some j =>
        match j.getKey "result" with
        | some v => .ok v
        | none => .error (raise_error req resp)
    else
      .error (raise_error req resp)

/-- How one run of the `paginate` generator ended. -/
inductive PagOutcome where
  | done
  | raised (e : PyError)
  | outOfFuel

/-- Observable trace of one run of the `paginate` generator: the items it
yielded (in order), the caller's params dict as the generator left it (the
generator mutates it in place), every HTTP request issued (in order), and
how the run ended. -/
structure PagResult where
  items : List Json
  finalParams : List (String × Json)
  reqs : List HttpRequest
  outcome : PagOutcome

/-- One run of the `while True` loop of `GravityZone.paginate`, entered with
page counter `page` and the caller's (shared, mutated-in-place) dict
`params`.  Each iteration does `params.update({'page': page, 'perPage':
items_per_page})`, dispatches via `call`, stops yielding nothing when
`resp.get('total') == 0`, otherwise yields `resp['items']` and stops when
`resp['page'] == resp['pagesCount']`, else repeats with `page + 1`.
An exception from `call` or from a subscript aborts the run, keeping the
items already yielded.  `fuel` bounds the number of iterations the model
unrolls (the Python loop has no intrinsic bound); running out of fuel is
reported as `outOfFuel` and happens only when the server keeps answering
`page ≠ pagesCount`. -/
def GravityZone.paginateAux (ipp : Nat) (transport : Transport)
    (endpoint method : String) (params : List (String × Json))
    (service : Option String) (page : Nat) :
    Nat → PagResult
  | 0 => ⟨[], params, [], .outOfFuel⟩
  | fuel + 1 =>
    let params' := dictUpdate params
      [("page", .num (page : Int)), ("perPage", .num (ipp : Int))]
    let req := GravityZone.mkRequest endpoint method params' service
    match GravityZone.call transport endpoint method params' service 30 with
    | .error e => ⟨[], params', [req], .raised e⟩
    | .ok resp =>
      if (match resp.getKey "total" with
          | some t => t.eqb (.num 0)
          | none => false) then
        ⟨[], params', [req], .done⟩
      else
        match resp.getKey "items" with
        | none => ⟨[], params', [req], .raised (.lookupError "items")⟩
        | some (.arr items) =>
          match resp.getKey "page" with
          | none => ⟨items, params', [req], .raised (.lookupError "page")⟩
          | some pageVal =>
            match resp.getKey "pagesCount" with
            | none =>
              ⟨items, params', [req], .raised (.lookupError "pagesCount")⟩
            | some pagesCountVal =>
              if pageVal.eqb pagesCountVal then
                ⟨items, params', [req], .done⟩
              else
                let rest := GravityZone.paginateAux ipp transport endpoint
                  method params' service (page + 1) fuel
                ⟨items ++ rest.items, rest.finalParams, req :: rest.reqs,
                 rest.outcome⟩
        | some _ => ⟨[], params', [req], .raised .typeError⟩

/-- `GravityZone.paginate(endpoint, method, params, service)`: run the loop
from `page = 1`.  `ipp` is `GravityZone.items_per_page` (class attribute,
default 30). -/
def GravityZone.paginate (ipp : Nat) (transport : Transport)
    (endpoint method : String) (params : List (String × Json))
    (service : Option String) (fuel : Nat) : PagResult :=
  GravityZone.paginateAux ipp transport endpoint method params service 1 fuel

/-- The class attribute `GravityZone.items_per_page = 30  # max: 100`. -/
def GravityZone.items_per_page : Nat := 30

/-- The slice of the full item list that page `k` (1-based) of size `pp`
carries. -/
def pageChunk (allItems : List Json) (pp : Nat) (k : Int) : List Json :=
  (allItems.drop ((k - 1).toNat * pp)).take pp

/-- The paginated result object page `k` of such a server reports:
`{total, page, pagesCount, perPage, items}`. -/
def pageJson (pp : Nat) (total pagesCount : Int) (allItems : List Json)
    (k : Int) : Json :=
  .obj [("total", .num total), ("page", .num k), ("pagesCount", .num pagesCount),
        ("perPage", .num (pp : Int)), ("items", .arr (pageChunk allItems pp k))]

/-- A well-behaved paginated server: every request whose params carry an
integer `page = k` is answered with HTTP 200 and a result object holding
the declared `total` and `pagesCount` and the `k`-th chunk of `allItems`
in order; anything else gets an unparseable 500. -/
def pagedServer (pp : Nat) (total pagesCount : Int) (allItems : List Json) :
    Transport :=
  fun req _ =>
    match (req.body.getKey "params").bind (fun pj => pj.getKey "page") with
    | some (.num k) =>
      .ok ⟨200, some (.obj
        [("result", pageJson pp total pagesCount allItems k)])⟩
    | _ => .ok ⟨500, none⟩

/-- The error-classification table as §4.3 of the spec states it, for the
refinement comparison: HTTP status first (401, then 403), then the RPC
error code (-32601, then -32602), then the generic fallback. -/
inductive ErrKind where
  | authentication
  | authorization
  | methodNotFoundKind
  | invalidParamsKind
  | generic
  | unclassified

/-- The kind of a raised exception, for comparing against the spec table.
Raw (non-taxonomy) exceptions are `unclassified`. -/
def PyError.kind : PyError → ErrKind
  | .authenticationError _ _ => .authentication
  | .authorizationError _ _ => .authorization
  | .methodNotFound _ _ => .methodNotFoundKind
  | .invalidParams _ _ => .invalidParamsKind
  | .gravityZoneException _ => .generic
  | _ => .unclassified

/-- Modelled from the spec: the classification table of §4.3, read off the
spec's own words ("checked in this priority order — HTTP status takes
precedence over RPC error code"), as a function of the HTTP status and the
RPC error code. -/
def classifyKindSpec (status : Nat) (code : Int) : ErrKind :=
  if status = 401 then .authentication
  else if status = 403 then .authorization
  else if code = -32601 then .methodNotFoundKind
  else if code = -32602 then .invalidParamsKind
  else .generic

/-! ### Lemmas about the dict model -/

theorem dictLookup_cons (a : String) (b : Json) (tl : List (String × Json))
    (k : String) :
    dictLookup ((a, b) :: tl) k = if a = k then some b else dictLookup tl k :=
  rfl

theorem dictSet_cons_ne {k' k : String} (v' : Json) (tl : List (String × Json))
    (v : Json) (hk : k' ≠ k) :
    dictSet ((k', v') :: tl) k v = (k', v') :: dictSet tl k v := by
  simp only [dictSet, List.any_cons, decide_eq_false hk, Bool.false_or,
    List.map_cons]
  by_cases h2 : (tl.any fun p => decide (p.1 = k)) = true
  · rw [if_pos h2, if_pos h2, if_neg hk]
  · rw [if_neg h2, if_neg h2, List.cons_append]

theorem dictLookup_replaceMap {k' k : String} (v : Json)
    (tl : List (String × Json)) (h : k' ≠ k) :
    dictLookup (tl.map (fun p => if p.1 = k then (k, v) else p)) k'
      = dictLookup tl k' := by
  induction tl with
  | nil => rfl
  | cons p tl ih =>
    obtain ⟨a, b⟩ := p
    rw [List.map_cons]
    by_cases ha : a = k
    · rw [ha]
      have hne : k ≠ k' := fun hc => h hc.symm
      have hrepl : (if ((k, b) : String × Json).1 = k then ((k : String), v)
          else (k, b)) = (k, v) := if_pos rfl
      rw [hrepl, dictLookup_cons, dictLookup_cons, if_neg hne, if_neg hne]
      exact ih
    · have hrepl : (if ((a, b) : String × Json).1 = k then ((k : String), v)
          else (a, b)) = (a, b) := if_neg ha
      rw [hrepl, dictLookup_cons, dictLookup_cons]
      by_cases ha' : a = k'
      · rw [if_pos ha', if_pos ha']
      · rw [if_neg ha', if_neg ha']
        exact ih

theorem dictLookup_append_ne {k' k : String} (v : Json)
    (d : List (String × Json)) (h : k' ≠ k) :
    dictLookup (d ++ [(k, v)]) k' = dictLookup d k' := by
  induction d with
  | nil =>
    have hne : k ≠ k' := fun hc => h hc.symm
    show dictLookup [(k, v)] k' = dictLookup [] k'
    rw [dictLookup_cons, if_neg hne]
  | cons p tl ih =>
    obtain ⟨a, b⟩ := p
    rw [List.cons_append, dictLookup_cons, dictLookup_cons]
    by_cases ha : a = k'
    · rw [if_pos ha, if_pos ha]
    · rw [if_neg ha, if_neg ha]
      exact ih

theorem dictLookup_dictSet_self (d : List (String × Json)) (k : String)
    (v : Json) : dictLookup (dictSet d k v) k = some v := by
  induction d with
  | nil =>
    show dictLookup [(k, v)] k = some v
    rw [dictLookup_cons, if_pos rfl]
  | cons p tl ih =>
    obtain ⟨k', v'⟩ := p
    by_cases hk : k' = k
    · rw [hk]
      have hcond : (((k, v') :: tl).any fun p => decide (p.1 = k)) = true := by
        simp
      simp only [dictSet]
      rw [if_pos hcond, List.map_cons]
      have hrepl : (if ((k, v') : String × Json).1 = k then ((k : String), v)
          else (k, v')) = (k, v) := if_pos rfl
      rw [hrepl, dictLookup_cons, if_pos rfl]
    · rw [dictSet_cons_ne v' tl v hk, dictLookup_cons, if_neg hk]
      exact ih

theorem dictLookup_dictSet_ne {k' k : String} (d : List (String × Json))
    (v : Json) (h : k' ≠ k) :
    dictLookup (dictSet d k v) k' = dictLookup d k' := by
  induction d with
  | nil =>
    have hne : k ≠ k' := fun hc => h hc.symm
    show dictLookup [(k, v)] k' = dictLookup [] k'
    rw [dictLookup_cons, if_neg hne]
  | cons p tl ih =>
    obtain ⟨a, b⟩ := p
    by_cases ha : a = k
    · rw [ha]
      have hcond : (((k, b) :: tl).any fun p => decide (p.1 = k)) = true := by
        simp
      simp only [dictSet]
      rw [if_pos hcond, List.map_cons]
      have hrepl : (if ((k, b) : String × Json).1 = k then ((k : String), v)
          else (k, b)) = (k, v) := if_pos rfl
      have hne : k ≠ k' := fun hc => h hc.symm
      rw [hrepl, dictLookup_cons, dictLookup_cons, if_neg hne, if_neg hne]
      exact dictLookup_replaceMap v tl h
    · rw [dictSet_cons_ne b tl v ha, dictLookup_cons, dictLookup_cons]
      by_cases ha' : a = k'
      · rw [if_pos ha', if_pos ha']
      · rw [if_neg ha', if_neg ha']
        exact ih

/-- `params.update({'page': g, 'perPage': p})` is two `dictSet`s in turn. -/
theorem dictUpdate_two (d : List (String × Json)) (k₁ k₂ : String)
    (v₁ v₂ : Json) :
    dictUpdate d [(k₁, v₁), (k₂, v₂)] = dictSet (dictSet d k₁ v₁) k₂ v₂ := rfl

theorem pageParams_page (params : List (String × Json)) (pg ipp : Int) :
    dictLookup (dictUpdate params [("page", .num pg), ("perPage", .num ipp)])
      "page" = some (.num pg) := by
  rw [dictUpdate_two]
  rw [dictLookup_dictSet_ne _ _ (by decide : "page" ≠ "perPage")]
  exact dictLookup_dictSet_self _ _ _

theorem pageParams_perPage (params : List (String × Json)) (pg ipp : Int) :
    dictLookup (dictUpdate params [("page", .num pg), ("perPage", .num ipp)])
      "perPage" = some (.num ipp) := by
  rw [dictUpdate_two]
  exact dictLookup_dictSet_self _ _ _

theorem pageParams_frame (params : List (String × Json)) (pg ipp : Int)
    (k : String) (h₁ : k ≠ "page") (h₂ : k ≠ "perPage") :
    dictLookup (dictUpdate params [("page", .num pg), ("perPage", .num ipp)])
      k = dictLookup params k := by
  rw [dictUpdate_two]
  rw [dictLookup_dictSet_ne _ _ h₂]
  exact dictLookup_dictSet_ne _ _ h₁

/-! ### Lemmas about Python `str.split` and the request path -/

theorem pySplitChars_ne_nil (sep : Char) (l : List Char) :
    pySplitChars sep l ≠ [] := by
  induction l with
  | nil => simp [pySplitChars]
  | cons c cs ih =>
    cases h : pySplitChars sep cs with
    | nil => exact absurd h ih
    | cons g gs =>
      simp only [pySplitChars, h]
      split <;> simp

theorem pySplitChars_no_sep (sep : Char) (l : List Char) (h : sep ∉ l) :
    pySplitChars sep l = [l] := by
  induction l with
  | nil => rfl
  | cons c cs ih =>
    have hc : ¬c = sep := fun hc => h (hc ▸ List.mem_cons_self c cs)
    have hcs : sep ∉ cs := fun hm => h (List.mem_cons_of_mem c hm)
    simp only [pySplitChars, ih hcs]
    rw [if_neg hc]

theorem pySplitChars_append_sep_length (sep : Char) (a b : List Char) :
    2 ≤ (pySplitChars sep (a ++ sep :: b)).length := by
  induction a with
  | nil =>
    cases h : pySplitChars sep b with
    | nil => exact absurd h (pySplitChars_ne_nil sep b)
    | cons g gs =>
      simp only [List.nil_append, pySplitChars, h]
      rw [if_pos trivial]
      simp
  | cons c cs ih =>
    cases h : pySplitChars sep (cs ++ sep :: b) with
    | nil => exact absurd h (pySplitChars_ne_nil _ _)
    | cons g gs =>
      rw [h] at ih
      rw [List.cons_append]
      simp only [pySplitChars, h]
      by_cases hc : c = sep
      · rw [if_pos hc]
        simp
      · rw [if_neg hc]
        simpa using ih

theorem pySplitChars_getLastD_append (sep : Char) (a b : List Char) :
    (pySplitChars sep (a ++ sep :: b)).getLastD []
      = (pySplitChars sep b).getLastD [] := by
  induction a with
  | nil =>
    cases h : pySplitChars sep b with
    | nil => exact absurd h (pySplitChars_ne_nil sep b)
    | cons g gs =>
      simp only [List.nil_append, pySplitChars, h]
      rw [if_pos trivial, List.getLastD_cons]
  | cons c cs ih =>
    cases h : pySplitChars sep (cs ++ sep :: b) with
    | nil => exact absurd h (pySplitChars_ne_nil _ _)
    | cons g gs =>
      have hlen := pySplitChars_append_sep_length sep cs b
      rw [h] at hlen ih
      have hgs : gs ≠ [] := by
        cases gs with
        | nil => simp at hlen
        | cons z zs => simp
      rw [List.cons_append]
      simp only [pySplitChars, h]
      by_cases hc : c = sep
      · rw [if_pos hc, List.getLastD_cons, List.getLastD_cons]
        rw [List.getLastD_cons] at ih
        exact ih
      · rw [if_neg hc, List.getLastD_cons]
        have hswap : gs.getLastD (c :: g) = gs.getLastD g := by
          cases gs with
          | nil => exact absurd rfl hgs
          | cons z zs => rw [List.getLastD_cons, List.getLastD_cons]
        rw [hswap]
        rw [List.getLastD_cons] at ih
        exact ih

theorem getLastD_map_mk (l : List (List Char)) (d : List Char) :
    (l.map (fun cs => String.mk cs)).getLastD (String.mk d)
      = String.mk (l.getLastD d) := by
  induction l generalizing d with
  | nil => rfl
  | cons x xs ih =>
    rw [List.map_cons, List.getLastD_cons, List.getLastD_cons, ih]

/-- `(a + '/' + b).split('/')[-1] == b` whenever `b` holds no slash. -/
theorem pyLastSplit_concat (a b : String) (hb : ('/' : Char) ∉ b.data) :
    pyLastSplit (a ++ "/" ++ b) '/' = b := by
  unfold pyLastSplit pySplit
  have hdata : (a ++ "/" ++ b).data = a.data ++ '/' :: b.data := by
    rw [String.data_append, String.data_append]
    rw [List.append_assoc]
    rfl
  rw [hdata]
  have hmk : ("" : String) = String.mk [] := rfl
  rw [hmk, getLastD_map_mk, pySplitChars_getLastD_append,
    pySplitChars_no_sep '/' b.data hb]
  rfl

theorem mkPath_some (e s : String) (he : e ≠ "") (hs : s ≠ "") :
    GravityZone.mkPath e (some s) = e ++ "/" ++ s := by
  unfold GravityZone.mkPath
  rw [List.filter_cons_of_pos (by simpa using he),
    List.filter_cons_of_pos (by simpa using hs), List.filter_nil]
  rfl

theorem mkPath_some_empty_endpoint (s : String) (hs : s ≠ "") :
    GravityZone.mkPath "" (some s) = s := by
  unfold GravityZone.mkPath
  rw [List.filter_cons_of_neg (by simp),
    List.filter_cons_of_pos (by simpa using hs), List.filter_nil]
  rfl

theorem mkPath_none (e : String) (he : e ≠ "") :
    GravityZone.mkPath e none = e := by
  unfold GravityZone.mkPath
  rw [List.filter_cons_of_pos (by simpa using he), List.filter_nil]
  rfl

/-- The `endpoint` that `raise_error` reconstructs from a request carrying a
non-empty, slash-free sub-service is that sub-service. -/
theorem lastSeg_service (e m s : String) (params : List (String × Json))
    (hs : s ≠ "") (hsl : ('/' : Char) ∉ s.data) :
    pyLastSplit (GravityZone.mkRequest e m params (some s)).urlPath '/' = s
    := by
  by_cases he : e = ""
  · subst he
    show pyLastSplit ("/v1.0/jsonrpc/" ++ GravityZone.mkPath "" (some s)) '/'
      = s
    rw [mkPath_some_empty_endpoint s hs]
    have hlit : ("/v1.0/jsonrpc/" : String) = "/v1.0/jsonrpc" ++ "/" := rfl
    have hsplit : ("/v1.0/jsonrpc/" ++ s : String)
        = "/v1.0/jsonrpc" ++ "/" ++ s := by
      rw [hlit, String.append_assoc]
    rw [hsplit]
    exact pyLastSplit_concat _ s hsl
  · show pyLastSplit ("/v1.0/jsonrpc/" ++ GravityZone.mkPath e (some s)) '/'
      = s
    rw [mkPath_some e s he hs]
    have hsplit : ("/v1.0/jsonrpc/" ++ (e ++ "/" ++ s) : String)
        = ("/v1.0/jsonrpc/" ++ e) ++ "/" ++ s := by
      rw [← String.append_assoc, ← String.append_assoc]
    rw [hsplit]
    exact pyLastSplit_concat _ s hsl

/-- The `endpoint` that `raise_error` reconstructs from a request carrying no
sub-service is the (slash-free) resource name. -/
theorem lastSeg_noservice (e m : String) (params : List (String × Json))
    (hel : ('/' : Char) ∉ e.data) :
    pyLastSplit (GravityZone.mkRequest e m params none).urlPath '/' = e := by
  by_cases he : e = ""
  · subst he
    rfl
  · show pyLastSplit ("/v1.0/jsonrpc/" ++ GravityZone.mkPath e none) '/' = e
    rw [mkPath_none e he]
    have hlit : ("/v1.0/jsonrpc/" : String) = "/v1.0/jsonrpc" ++ "/" := rfl
    have hsplit : ("/v1.0/jsonrpc/" ++ e : String)
        = "/v1.0/jsonrpc" ++ "/" ++ e := by
      rw [hlit, String.append_assoc]
    rw [hsplit]
    exact pyLastSplit_concat _ e hel

/-! ### Lemmas about the request envelope -/

theorem mkBody_getKey_method (m : String) (params : List (String × Json)) :
    (GravityZone.mkBody m params).getKey "method" = some (.str m) := rfl

theorem mkBody_getKey_params (m : String) (params : List (String × Json)) :
    (GravityZone.mkBody m params).getKey "params" = some (.obj params) := rfl

theorem mkRequest_body (e m : String) (params : List (String × Json))
    (svc : Option String) :
    (GravityZone.mkRequest e m params svc).body = GravityZone.mkBody m params
    := rfl

theorem Json.eqb_num (a b : Int) : Json.eqb (.num a) (.num b) = (a == b) := rfl

/-! ### Lemmas about the branches of `GravityZone.call` -/

theorem call_ok (transport : Transport) (e m : String)
    (params : List (String × Json)) (svc : Option String) (t : Nat)
    (resp : HttpResponse) (j v : Json)
    (htr : transport (GravityZone.mkRequest e m params svc) t = .ok resp)
    (h2xx : 200 ≤ resp.status ∧ resp.status ≤ 299)
    (hbody : resp.body = some j)
    (hres : j.getKey "result" = some v) :
    GravityZone.call transport e m params svc t = .ok v := by
  simp only [GravityZone.call, htr]
  rw [if_pos h2xx]
  simp only [hbody, hres]

theorem call_http_error (transport : Transport) (e m : String)
    (params : List (String × Json)) (svc : Option String) (t : Nat)
    (resp : HttpResponse)
    (htr : transport (GravityZone.mkRequest e m params svc) t = .ok resp)
    (hfail : ¬(200 ≤ resp.status ∧ resp.status ≤ 299)) :
    GravityZone.call transport e m params svc t
      = .error (raise_error (GravityZone.mkRequest e m params svc) resp) := by
  simp only [GravityZone.call, htr]
  rw [if_neg hfail]

theorem call_missing_result (transport : Transport) (e m : String)
    (params : List (String × Json)) (svc : Option String) (t : Nat)
    (resp : HttpResponse) (j : Json)
    (htr : transport (GravityZone.mkRequest e m params svc) t = .ok resp)
    (h2xx : 200 ≤ resp.status ∧ resp.status ≤ 299)
    (hbody : resp.body = some j)
    (hres : j.getKey "result" = none) :
    GravityZone.call transport e m params svc t
      = .error (raise_error (GravityZone.mkRequest e m params svc) resp) := by
  simp only [GravityZone.call, htr]
  rw [if_pos h2xx]
  simp only [hbody, hres]

theorem call_unparseable_2xx (transport : Transport) (e m : String)
    (params : List (String × Json)) (svc : Option String) (t : Nat)
    (resp : HttpResponse)
    (htr : transport (GravityZone.mkRequest e m params svc) t = .ok resp)
    (h2xx : 200 ≤ resp.status ∧ resp.status ≤ 299)
    (hbody : resp.body = none) :
    GravityZone.call transport e m params svc t = .error .jsonDecodeError := by
  simp only [GravityZone.call, htr]
  rw [if_pos h2xx]
  simp only [hbody]

theorem call_timeout (transport : Transport) (e m : String)
    (params : List (String × Json)) (svc : Option String) (t : Nat)
    (htr : transport (GravityZone.mkRequest e m params svc) t
      = .error .timeout) :
    GravityZone.call transport e m params svc t = .error .httpxTimeout := by
  simp only [GravityZone.call, htr]

/-- On a response whose body decodes to an object with a well-formed
`error` payload, `raise_error` classifies by status first (401, 403), then
by RPC code (-32601, -32602), and otherwise raises the bare
`GravityZoneException`. -/
theorem raise_error_classified (req : HttpRequest) (resp : HttpResponse)
    (j err d msg mj pj : Json) (c : Int)
    (hbody : resp.body = some j)
    (herr : j.getKey "error" = some err)
    (hmeth : req.body.getKey "method" = some mj)
    (hparams : req.body.getKey "params" = some pj)
    (hdata : err.getKey "data" = some d)
    (hdet : d.getKey "details" = some msg)
    (hcode : err.getKey "code" = some (.num c)) :
    raise_error req resp =
      if resp.status = 401 then
        .authenticationError msg ⟨pyLastSplit req.urlPath '/', mj, pj⟩
      else if resp.status = 403 then
        .authorizationError msg ⟨pyLastSplit req.urlPath '/', mj, pj⟩
      else if c = -32601 then
        .methodNotFound msg ⟨pyLastSplit req.urlPath '/', mj, pj⟩
      else if c = -32602 then
        .invalidParams msg ⟨pyLastSplit req.urlPath '/', mj, pj⟩
      else .gravityZoneException msg := by
  simp only [raise_error, hbody, herr, hmeth, hparams, hdata, hdet, hcode]
  by_cases h1 : resp.status = 401
  · rw [if_pos h1, if_pos h1]
  · rw [if_neg h1, if_neg h1]
    by_cases h2 : resp.status = 403
    · rw [if_pos h2, if_pos h2]
    · rw [if_neg h2, if_neg h2]
      simp only [Json.eqb_num, beq_iff_eq]

/-- Whenever `raise_error` raises an info-carrying (classified) error, the
`endpoint` it records is the last `/`-separated segment of the request's
URL path, whatever the classification was. -/
theorem raise_error_info_endpoint (req : HttpRequest) (resp : HttpResponse)
    (i : ErrInfo) (h : (raise_error req resp).info = some i) :
    i.endpoint = pyLastSplit req.urlPath '/' := by
  simp only [raise_error] at h
  repeat' split at h
  all_goals simp only [PyError.info, Option.some.injEq] at h
  all_goals first
    | exact Option.noConfusion h
    | (subst h; rfl)

/-! ### Claim theorems -/

/-- C5: for every successful (2xx) response whose JSON body contains a
`result` key, `GravityZone.call` returns exactly the value of that key,
unmodified, whatever JSON value it is. -/
theorem c5_dispatch_returns_result_unmodified (transport : Transport)
    (e m : String) (params : List (String × Json)) (svc : Option String)
    (t : Nat) (resp : HttpResponse) (j v : Json)
    (htr : transport (GravityZone.mkRequest e m params svc) t = .ok resp)
    (h2xx : 200 ≤ resp.status ∧ resp.status ≤ 299)
    (hbody : resp.body = some j)
    (hres : j.getKey "result" = some v) :
    GravityZone.call transport e m params svc t = .ok v :=
  call_ok transport e m params svc t resp j v htr h2xx hbody hres

/-- C5 witness: a nested value (array holding null, a number and an object
with a null field) is returned exactly as the server sent it. -/
theorem c5_witness :
    GravityZone.call
      (fun _ _ => .ok ⟨200, some (.obj [("result",
        .arr [.null, .num 7, .obj [("a", .null)]])])⟩)
      "accounts" "getAccountDetails" [("accountId", .str "x")] none 30
      = .ok (.arr [.null, .num 7, .obj [("a", .null)]]) :=
  c5_dispatch_returns_result_unmodified
    (fun _ _ => .ok ⟨200, some (.obj [("result",
      .arr [.null, .num 7, .obj [("a", .null)]])])⟩)
    "accounts" "getAccountDetails" [("accountId", .str "x")] none 30
    ⟨200, some (.obj [("result", .arr [.null, .num 7, .obj [("a", .null)]])])⟩
    (.obj [("result", .arr [.null, .num 7, .obj [("a", .null)]])])
    (.arr [.null, .num 7, .obj [("a", .null)]])
    rfl (by decide) rfl rfl

/-- C6: the `params` field of the outgoing envelope is exactly the mapping
the caller gave `call` — no keys stripped, and in particular every
null-valued binding is still looked up as null in the sent object. -/
theorem c6_params_preserved (e m : String) (params : List (String × Json))
    (svc : Option String) :
    (GravityZone.mkRequest e m params svc).body.getKey "params"
        = some (.obj params)
    ∧ ∀ k, dictLookup params k = some .null →
        ((GravityZone.mkRequest e m params svc).body.getKey "params").bind
          (fun pj => pj.getKey k) = some .null := by
  refine ⟨rfl, fun k h => ?_⟩
  show (some (Json.obj params)).bind (fun pj => pj.getKey k) = some .null
  simpa [Json.getKey] using h

/-- C6 witness: a params mapping with an explicitly null `companyId` goes
out with that binding intact. -/
theorem c6_witness :
    ((GravityZone.mkRequest "accounts" "getAccountsList"
        [("companyId", Json.null)] none).body.getKey "params").bind
      (fun pj => pj.getKey "companyId") = some .null :=
  (c6_params_preserved "accounts" "getAccountsList"
    [("companyId", Json.null)] none).2 "companyId" rfl

/-- C4 counterexample: when the HTTP exchange times out, the exception that
escapes `call` is `httpx`'s timeout error, which is not an instance of the
client's `GravityZoneException` taxonomy — the taxonomy in
`exceptions.py` has no `Timeout` kind at all, so the claim's "`Timeout`
kind from the client's typed error taxonomy" describes nothing the code
can raise. -/
theorem c4_counterexample :
    GravityZone.call (fun _ _ => .error .timeout) "network"
      "getEndpointsList" [("parentId", .str "abc")] none 30
      = .error .httpxTimeout
    ∧ PyError.inTaxonomy .httpxTimeout = false :=
  ⟨rfl, rfl⟩

/-- C4 amended: for every dispatch call whose HTTP exchange times out, the
call fails by propagating the HTTP library's timeout exception unchanged;
that exception is outside the client's typed error taxonomy (which defines
no Timeout kind). -/
theorem c4_amended_timeout_propagates_raw (transport : Transport)
    (e m : String) (params : List (String × Json)) (svc : Option String)
    (t : Nat)
    (htr : transport (GravityZone.mkRequest e m params svc) t
      = .error .timeout) :
    GravityZone.call transport e m params svc t = .error .httpxTimeout
    ∧ PyError.inTaxonomy .httpxTimeout = false :=
  ⟨call_timeout transport e m params svc t htr, rfl⟩

/-- C4 witness: a concrete timed-out exchange. -/
theorem c4_witness :
    GravityZone.call (fun _ _ => .error .timeout) "accounts"
      "getAccountsList" [("companyId", .null)] none 60
      = .error .httpxTimeout
    ∧ PyError.inTaxonomy .httpxTimeout = false :=
  c4_amended_timeout_propagates_raw (fun _ _ => .error .timeout) "accounts"
    "getAccountsList" [("companyId", .null)] none 60 rfl

/-- C3 counterexample: a 200 response whose object body has neither a
`result` nor an `error` key makes `call` raise the uncaught `KeyError`
from `response.json()['error']` inside `raise_error` — a raw exception
outside the `GravityZoneException` taxonomy, not the GenericClientError
(`GravityZoneException`) the claim promises. -/
theorem c3_counterexample :
    GravityZone.call (fun _ _ => .ok ⟨200, some (.obj [("foo", .num 1)])⟩)
      "network" "getEndpointsList" [("parentId", .str "abc")] none 30
      = .error (.lookupError "error")
    ∧ PyError.inTaxonomy (.lookupError "error") = false :=
  ⟨rfl, rfl⟩

/-- C3 amended: for a response body that is malformed JSON, dispatch fails
with the raw JSON decode error; for a JSON body with neither `result` nor
`error` key, dispatch fails with the raw `KeyError` on `'error'`.  In both
cases the call never silently returns an empty or default result, but the
raised exception is a raw standard-library error, not a
`GravityZoneException`. -/
theorem c3_amended_malformed_raises_raw (transport : Transport)
    (e m : String) (params : List (String × Json)) (svc : Option String)
    (t : Nat) (resp : HttpResponse)
    (htr : transport (GravityZone.mkRequest e m params svc) t = .ok resp) :
    (resp.body = none →
      GravityZone.call transport e m params svc t = .error .jsonDecodeError
      ∧ PyError.inTaxonomy .jsonDecodeError = false)
    ∧ (∀ j, resp.body = some j → j.getKey "result" = none →
        j.getKey "error" = none →
        GravityZone.call transport e m params svc t
          = .error (.lookupError "error")
        ∧ PyError.inTaxonomy (.lookupError "error") = false) := by
  constructor
  · intro hb
    refine ⟨?_, rfl⟩
    by_cases h2 : 200 ≤ resp.status ∧ resp.status ≤ 299
    · exact call_unparseable_2xx transport e m params svc t resp htr h2 hb
    · rw [call_http_error transport e m params svc t resp htr h2]
      simp only [raise_error, hb]
  · intro j hb hres herr
    refine ⟨?_, rfl⟩
    by_cases h2 : 200 ≤ resp.status ∧ resp.status ≤ 299
    · rw [call_missing_result transport e m params svc t resp j htr h2 hb
        hres]
      simp only [raise_error, hb, herr]
    · rw [call_http_error transport e m params svc t resp htr h2]
      simp only [raise_error, hb, herr]

/-- C3 witness: a 500 with an unparseable body raises the raw JSON decode
error, and a 204-style empty-object body raises the raw `KeyError`. -/
theorem c3_witness :
    (GravityZone.call (fun _ _ => .ok ⟨500, none⟩) "companies"
        "getCompanyDetails" [("companyId", .null)] none 30
      = .error .jsonDecodeError)
    ∧ (GravityZone.call (fun _ _ => .ok ⟨200, some (.obj [])⟩) "companies"
        "getCompanyDetails" [("companyId", .null)] none 30
      = .error (.lookupError "error")) :=
  ⟨((c3_amended_malformed_raises_raw (fun _ _ => .ok ⟨500, none⟩) "companies"
      "getCompanyDetails" [("companyId", .null)] none 30 ⟨500, none⟩
      rfl).1 rfl).1,
   ((c3_amended_malformed_raises_raw (fun _ _ => .ok ⟨200, some (.obj [])⟩)
      "companies" "getCompanyDetails" [("companyId", .null)] none 30
      ⟨200, some (.obj [])⟩ rfl).2 (.obj []) rfl rfl rfl).1⟩

/-- C2: for every failed call carrying a well-formed JSON-RPC error object
(`{code, data: {details}}`), the kind of the raised error is exactly what
the spec's priority table dictates: HTTP 401 first, then HTTP 403, then
RPC code -32601, then -32602, then the generic fallback. -/
theorem c2_classification_matches_spec_table (transport : Transport)
    (e m : String) (params : List (String × Json)) (svc : Option String)
    (t : Nat) (resp : HttpResponse) (j err d msg : Json) (c : Int)
    (htr : transport (GravityZone.mkRequest e m params svc) t = .ok resp)
    (hbody : resp.body = some j)
    (herr : j.getKey "error" = some err)
    (hdata : err.getKey "data" = some d)
    (hdet : d.getKey "details" = some msg)
    (hcode : err.getKey "code" = some (.num c))
    (hfail : ¬(200 ≤ resp.status ∧ resp.status ≤ 299)
      ∨ j.getKey "result" = none) :
    ∃ r, GravityZone.call transport e m params svc t = .error r
      ∧ r.kind = classifyKindSpec resp.status c := by
  have hmeth : (GravityZone.mkRequest e m params svc).body.getKey "method"
      = some (.str m) := mkBody_getKey_method m params
  have hparams : (GravityZone.mkRequest e m params svc).body.getKey "params"
      = some (.obj params) := mkBody_getKey_params m params
  have hre : GravityZone.call transport e m params svc t
      = .error (raise_error (GravityZone.mkRequest e m params svc) resp)
      := by
    rcases hfail with hf | hf
    · exact call_http_error transport e m params svc t resp htr hf
    · by_cases h2 : 200 ≤ resp.status ∧ resp.status ≤ 299
      · exact call_missing_result transport e m params svc t resp j htr h2
          hbody hf
      · exact call_http_error transport e m params svc t resp htr h2
  refine ⟨_, hre, ?_⟩
  rw [raise_error_classified (GravityZone.mkRequest e m params svc) resp
    j err d msg (.str m) (.obj params) c hbody herr hmeth hparams hdata
    hdet hcode]
  by_cases h1 : resp.status = 401
  · simp [classifyKindSpec, h1, PyError.kind]
  · by_cases h2 : resp.status = 403
    · simp [classifyKindSpec, h1, h2, PyError.kind]
    · by_cases h3 : c = -32601
      · simp [classifyKindSpec, h1, h2, h3, PyError.kind]
      · by_cases h4 : c = -32602
        · simp [classifyKindSpec, h1, h2, h3, h4, PyError.kind]
        · simp [classifyKindSpec, h1, h2, h3, h4, PyError.kind]

/-- C2 witness: an RPC -32601 on an otherwise-200 response classifies as
MethodNotFound, exactly the spec table's row. -/
theorem c2_witness :
    ∃ r, GravityZone.call
        (fun _ _ => .ok ⟨200, some (.obj [("error", .obj [("code",
          .num (-32601)), ("data", .obj [("details",
          .str "Method not found")])])])⟩)
        "network" "getEndpointsList" [("parentId", .str "abc")] none 30
        = .error r
      ∧ r.kind = classifyKindSpec 200 (-32601) :=
  c2_classification_matches_spec_table
    (fun _ _ => .ok ⟨200, some (.obj [("error", .obj [("code",
      .num (-32601)), ("data", .obj [("details",
      .str "Method not found")])])])⟩)
    "network" "getEndpointsList" [("parentId", .str "abc")] none 30
    ⟨200, some (.obj [("error", .obj [("code", .num (-32601)), ("data",
      .obj [("details", .str "Method not found")])])])⟩
    (.obj [("error", .obj [("code", .num (-32601)), ("data",
      .obj [("details", .str "Method not found")])])])
    (.obj [("code", .num (-32601)), ("data",
      .obj [("details", .str "Method not found")])])
    (.obj [("details", .str "Method not found")])
    (.str "Method not found") (-32601)
    rfl rfl rfl rfl rfl rfl (Or.inr rfl)

/-- C9: every classified (info-carrying) error raised from a call made with
a non-empty sub-service — whether the failure is an HTTP error status or a
JSON-RPC error carried by an otherwise-200 response — records the
sub-service, the last segment of the request path, as its `endpoint`
context, not the resource name; only calls without a sub-service record
the resource. -/
theorem c9_error_endpoint_is_last_path_segment (transport : Transport)
    (e m s : String) (params : List (String × Json)) (t : Nat)
    (hs : s ≠ "") (hsl : ('/' : Char) ∉ s.data)
    (hel : ('/' : Char) ∉ e.data) :
    (∀ resp, transport (GravityZone.mkRequest e m params (some s)) t
        = .ok resp →
      (¬(200 ≤ resp.status ∧ resp.status ≤ 299)
        ∨ ∃ j, resp.body = some j ∧ j.getKey "result" = none) →
      ∃ r, GravityZone.call transport e m params (some s) t = .error r
        ∧ ∀ i, r.info = some i → i.endpoint = s)
    ∧ (∀ resp, transport (GravityZone.mkRequest e m params none) t
        = .ok resp →
      (¬(200 ≤ resp.status ∧ resp.status ≤ 299)
        ∨ ∃ j, resp.body = some j ∧ j.getKey "result" = none) →
      ∃ r, GravityZone.call transport e m params none t = .error r
        ∧ ∀ i, r.info = some i → i.endpoint = e) := by
  constructor
  · intro resp htr hf
    have hfail : GravityZone.call transport e m params (some s) t
        = .error (raise_error (GravityZone.mkRequest e m params (some s))
          resp) := by
      rcases hf with hf | ⟨j, hb, hres⟩
      · exact call_http_error transport e m params (some s) t resp htr hf
      · by_cases h2 : 200 ≤ resp.status ∧ resp.status ≤ 299
        · exact call_missing_result transport e m params (some s) t resp j
            htr h2 hb hres
        · exact call_http_error transport e m params (some s) t resp htr h2
    refine ⟨_, hfail, ?_⟩
    intro i hi
    rw [raise_error_info_endpoint _ resp i hi]
    exact lastSeg_service e m s params hs hsl
  · intro resp htr hf
    have hfail : GravityZone.call transport e m params none t
        = .error (raise_error (GravityZone.mkRequest e m params none)
          resp) := by
      rcases hf with hf | ⟨j, hb, hres⟩
      · exact call_http_error transport e m params none t resp htr hf
      · by_cases h2 : 200 ≤ resp.status ∧ resp.status ≤ 299
        · exact call_missing_result transport e m params none t resp j htr
            h2 hb hres
        · exact call_http_error transport e m params none t resp htr h2
    refine ⟨_, hfail, ?_⟩
    intro i hi
    rw [raise_error_info_endpoint _ resp i hi]
    exact lastSeg_noservice e m params hel

/-- C9 witness: a MethodNotFound (`-32601`) carried by an otherwise-200
response on `network/endpoints` records `endpoint = "endpoints"`, while
the same failure without the sub-service records `endpoint = "network"`. -/
theorem c9_witness :
    (∃ r, GravityZone.call
        (fun _ _ => .ok ⟨200, some (.obj [("error", .obj [("code",
          .num (-32601)), ("data", .obj [("details",
          .str "Method not found")])])])⟩)
        "network" "getEndpointsList" [("parentId", .str "abc")]
        (some "endpoints") 30 = .error r
      ∧ ∀ i, r.info = some i → i.endpoint = "endpoints")
    ∧ (∃ r, GravityZone.call
        (fun _ _ => .ok ⟨200, some (.obj [("error", .obj [("code",
          .num (-32601)), ("data", .obj [("details",
          .str "Method not found")])])])⟩)
        "network" "getEndpointsList" [("parentId", .str "abc")] none 30
        = .error r
      ∧ ∀ i, r.info = some i → i.endpoint = "network") :=
  ⟨(c9_error_endpoint_is_last_path_segment
      (fun _ _ => .ok ⟨200, some (.obj [("error", .obj [("code",
        .num (-32601)), ("data", .obj [("details",
        .str "Method not found")])])])⟩)
      "network" "getEndpointsList" "endpoints" [("parentId", .str "abc")]
      30 (by decide) (by decide) (by decide)).1
    ⟨200, some (.obj [("error", .obj [("code", .num (-32601)), ("data",
      .obj [("details", .str "Method not found")])])])⟩ rfl
    (Or.inr ⟨.obj [("error", .obj [("code", .num (-32601)), ("data",
      .obj [("details", .str "Method not found")])])], rfl, rfl⟩),
   (c9_error_endpoint_is_last_path_segment
      (fun _ _ => .ok ⟨200, some (.obj [("error", .obj [("code",
        .num (-32601)), ("data", .obj [("details",
        .str "Method not found")])])])⟩)
      "network" "getEndpointsList" "endpoints" [("parentId", .str "abc")]
      30 (by decide) (by decide) (by decide)).2
    ⟨200, some (.obj [("error", .obj [("code", .num (-32601)), ("data",
      .obj [("details", .str "Method not found")])])])⟩ rfl
    (Or.inr ⟨.obj [("error", .obj [("code", .num (-32601)), ("data",
      .obj [("details", .str "Method not found")])])], rfl, rfl⟩)⟩

/-- C7: when the first page's response reports `total = 0`, the iterator
yields nothing, issues exactly one request, and finishes cleanly. -/
theorem c7_empty_set_single_request (transport : Transport) (e m : String)
    (params : List (String × Json)) (svc : Option String) (fuel : Nat)
    (rj : Json)
    (hfuel : 1 ≤ fuel)
    (htr : transport (GravityZone.mkRequest e m
        (dictUpdate params [("page", .num ((1 : Nat) : Int)),
          ("perPage", .num ((30 : Nat) : Int))]) svc) 30
      = .ok ⟨200, some (.obj [("result", rj)])⟩)
    (htotal : rj.getKey "total" = some (.num 0)) :
    (GravityZone.paginate 30 transport e m params svc fuel).items = []
    ∧ (GravityZone.paginate 30 transport e m params svc fuel).reqs.length
      = 1
    ∧ (GravityZone.paginate 30 transport e m params svc fuel).outcome
      = .done := by
  obtain ⟨f, rfl⟩ : ∃ f, fuel = f + 1 := ⟨fuel - 1, by omega⟩
  have hcall : GravityZone.call transport e m
      (dictUpdate params [("page", .num ((1 : Nat) : Int)),
        ("perPage", .num ((30 : Nat) : Int))]) svc 30 = .ok rj :=
    call_ok transport e m _ svc 30 ⟨200, some (.obj [("result", rj)])⟩
      (.obj [("result", rj)]) rj htr (by constructor <;> simp) rfl rfl
  simp only [GravityZone.paginate, GravityZone.paginateAux, hcall, htotal]
  simp [Json.eqb_num]

/-- C7 witness: an empty collection (server reports `total = 0`) yields no
items from exactly one request. -/
theorem c7_witness :
    (GravityZone.paginate 30 (pagedServer 30 0 0 []) "network"
      "getEndpointsList" [("parentId", .str "abc")] none 5).items = []
    ∧ (GravityZone.paginate 30 (pagedServer 30 0 0 []) "network"
      "getEndpointsList" [("parentId", .str "abc")] none 5).reqs.length = 1
    ∧ (GravityZone.paginate 30 (pagedServer 30 0 0 []) "network"
      "getEndpointsList" [("parentId", .str "abc")] none 5).outcome
      = .done :=
  c7_empty_set_single_request (pagedServer 30 0 0 []) "network"
    "getEndpointsList" [("parentId", .str "abc")] none 5
    (pageJson 30 0 0 [] ((1 : Nat) : Int)) (by decide) rfl rfl

/-- C8: when page 1 of 3 succeeds and the dispatch of page 2 fails with an
HTTP 403, the iterator has already yielded page 1's items, the
`AuthorizationError` propagates as-is aborting the run, and exactly two
requests were issued — none after the failure. -/
theorem c8_midstream_failure_aborts (transport : Transport) (e m : String)
    (params : List (String × Json)) (svc : Option String)
    (its1 : List Json) (t3 : Int) (c msg : Json) (fuel : Nat)
    (hfuel : 2 ≤ fuel) (htot : t3 ≠ 0)
    (htr1 : transport (GravityZone.mkRequest e m
        (dictUpdate params [("page", .num 1), ("perPage", .num 30)]) svc) 30
      = .ok ⟨200, some (.obj [("result", .obj [("total", .num t3),
          ("page", .num 1), ("pagesCount", .num 3),
          ("items", .arr its1)])])⟩)
    (htr2 : transport (GravityZone.mkRequest e m
        (dictUpdate (dictUpdate params [("page", .num 1),
          ("perPage", .num 30)])
          [("page", .num 2), ("perPage", .num 30)]) svc) 30
      = .ok ⟨403, some (.obj [("error", .obj [("code", c),
          ("data", .obj [("details", msg)])])])⟩) :
    (GravityZone.paginate 30 transport e m params svc fuel).items = its1
    ∧ (GravityZone.paginate 30 transport e m params svc fuel).reqs.length
      = 2
    ∧ ∃ i, (GravityZone.paginate 30 transport e m params svc fuel).outcome
      = .raised (.authorizationError msg i) := by
  obtain ⟨f, rfl⟩ : ∃ f, fuel = f + 2 := ⟨fuel - 2, by omega⟩
  have hcall1 : GravityZone.call transport e m
      (dictUpdate params [("page", .num 1), ("perPage", .num 30)]) svc 30
      = .ok (.obj [("total", .num t3), ("page", .num 1),
          ("pagesCount", .num 3), ("items", .arr its1)]) :=
    call_ok transport e m _ svc 30 _ _ _ htr1 (by constructor <;> simp)
      rfl rfl
  have hcall2 : GravityZone.call transport e m
      (dictUpdate (dictUpdate params [("page", .num 1),
        ("perPage", .num 30)])
        [("page", .num 2), ("perPage", .num 30)]) svc 30
      = .error (raise_error (GravityZone.mkRequest e m
          (dictUpdate (dictUpdate params
            [("page", .num 1), ("perPage", .num 30)])
            [("page", .num 2), ("perPage", .num 30)]) svc)
          ⟨403, some (.obj [("error", .obj [("code", c),
            ("data", .obj [("details", msg)])])])⟩) :=
    call_http_error transport e m _ svc 30 _ htr2 (by simp)
  have hbeq : (t3 == 0) = false := beq_eq_false_iff_ne.mpr htot
  have hraise : raise_error (GravityZone.mkRequest e m
      (dictUpdate (dictUpdate params [("page", .num 1),
        ("perPage", .num 30)])
        [("page", .num 2), ("perPage", .num 30)]) svc)
      ⟨403, some (.obj [("error", .obj [("code", c),
        ("data", .obj [("details", msg)])])])⟩
      = .authorizationError msg
        ⟨pyLastSplit (GravityZone.mkRequest e m
          (dictUpdate (dictUpdate params [("page", .num 1),
            ("perPage", .num 30)])
            [("page", .num 2), ("perPage", .num 30)]) svc).urlPath '/',
         .str m,
         .obj (dictUpdate (dictUpdate params
           [("page", .num 1), ("perPage", .num 30)])
           [("page", .num 2), ("perPage", .num 30)])⟩ := rfl
  refine ⟨?_, ?_, ?_⟩
  · simp [GravityZone.paginate, GravityZone.paginateAux, hcall1, hcall2,
      hraise, Json.getKey, dictLookup, Json.eqb_num, hbeq]
  · simp [GravityZone.paginate, GravityZone.paginateAux, hcall1, hcall2,
      hraise, Json.getKey, dictLookup, Json.eqb_num, hbeq]
  · simp [GravityZone.paginate, GravityZone.paginateAux, hcall1, hcall2,
      hraise, Json.getKey, dictLookup, Json.eqb_num, hbeq]

/-- C8 witness: a concrete 3-page collection whose page 2 returns 403 —
page 1's two items are yielded, the `AuthorizationError` aborts the run,
and only two requests go out. -/
theorem c8_witness :
    (GravityZone.paginate 30
      (fun req _ =>
        match (req.body.getKey "params").bind (fun pj => pj.getKey "page")
          with
        | some (.num 1) => .ok ⟨200, some (.obj [("result", .obj
            [("total", .num 5), ("page", .num 1), ("pagesCount", .num 3),
             ("items", .arr [.num 10, .num 11])])])⟩
        | _ => .ok ⟨403, some (.obj [("error", .obj [("code",
            .num (-32000)),
            ("data", .obj [("details", .str "Forbidden")])])])⟩)
      "network" "getEndpointsList" [("parentId", .str "abc")] none
      5).items = [.num 10, .num 11]
    ∧ (GravityZone.paginate 30
      (fun req _ =>
        match (req.body.getKey "params").bind (fun pj => pj.getKey "page")
          with
        | some (.num 1) => .ok ⟨200, some (.obj [("result", .obj
            [("total", .num 5), ("page", .num 1), ("pagesCount", .num 3),
             ("items", .arr [.num 10, .num 11])])])⟩
        | _ => .ok ⟨403, some (.obj [("error", .obj [("code",
            .num (-32000)),
            ("data", .obj [("details", .str "Forbidden")])])])⟩)
      "network" "getEndpointsList" [("parentId", .str "abc")] none
      5).reqs.length = 2
    ∧ ∃ i, (GravityZone.paginate 30
      (fun req _ =>
        match (req.body.getKey "params").bind (fun pj => pj.getKey "page")
          with
        | some (.num 1) => .ok ⟨200, some (.obj [("result", .obj
            [("total", .num 5), ("page", .num 1), ("pagesCount", .num 3),
             ("items", .arr [.num 10, .num 11])])])⟩
        | _ => .ok ⟨403, some (.obj [("error", .obj [("code",
            .num (-32000)),
            ("data", .obj [("details", .str "Forbidden")])])])⟩)
      "network" "getEndpointsList" [("parentId", .str "abc")] none
      5).outcome = .raised (.authorizationError (.str "Forbidden") i) :=
  c8_midstream_failure_aborts
    (fun req _ =>
      match (req.body.getKey "params").bind (fun pj => pj.getKey "page")
        with
      | some (.num 1) => .ok ⟨200, some (.obj [("result", .obj
          [("total", .num 5), ("page", .num 1), ("pagesCount", .num 3),
           ("items", .arr [.num 10, .num 11])])])⟩
      | _ => .ok ⟨403, some (.obj [("error", .obj [("code",
          .num (-32000)),
          ("data", .obj [("details", .str "Forbidden")])])])⟩)
    "network" "getEndpointsList" [("parentId", .str "abc")] none
    [.num 10, .num 11] 5 (.num (-32000)) (.str "Forbidden") 5
    (by decide) (by decide) rfl rfl

/-- Every branch of one `paginate` iteration only writes the `page` and
`perPage` keys of the shared params dict: all other keys keep the value
the caller put there, however the run ends. -/
theorem paginateAux_frame (ipp : Nat) (transport : Transport) (e m : String)
    (svc : Option String) :
    ∀ (fuel : Nat) (params : List (String × Json)) (page : Nat)
      (k : String), k ≠ "page" → k ≠ "perPage" →
      dictLookup (GravityZone.paginateAux ipp transport e m params svc page
        fuel).finalParams k = dictLookup params k := by
  intro fuel
  induction fuel with
  | zero => intro params page k h1 h2; rfl
  | succ f ih =>
    intro params page k h1 h2
    simp only [GravityZone.paginateAux]
    repeat' split
    all_goals first
      | exact pageParams_frame params (page : Int) (ipp : Int) k h1 h2
      | exact (ih _ (page + 1) k h1 h2).trans
          (pageParams_frame params (page : Int) (ipp : Int) k h1 h2)

/-- Whenever at least one iteration runs, the params dict the generator
leaves behind is exactly the params of the last request it issued, and it
carries `page` and `perPage` bindings (`perPage` being the configured page
size). -/
theorem paginateAux_last (ipp : Nat) (transport : Transport) (e m : String)
    (svc : Option String) :
    ∀ (fuel : Nat) (params : List (String × Json)) (page : Nat),
      1 ≤ fuel →
      ∃ req pg,
        (GravityZone.paginateAux ipp transport e m params svc page
          fuel).reqs.getLast? = some req
        ∧ req.body.getKey "params" = some (.obj (GravityZone.paginateAux
            ipp transport e m params svc page fuel).finalParams)
        ∧ dictLookup (GravityZone.paginateAux ipp transport e m params svc
            page fuel).finalParams "page" = some (.num pg)
        ∧ dictLookup (GravityZone.paginateAux ipp transport e m params svc
            page fuel).finalParams "perPage" = some (.num (ipp : Int)) := by
  intro fuel
  induction fuel with
  | zero => intro params page h; omega
  | succ f ih =>
    intro params page _
    by_cases hf : 1 ≤ f
    · simp only [GravityZone.paginateAux]
      repeat' split
      all_goals try exact ⟨GravityZone.mkRequest e m
        (dictUpdate params [("page", .num (page : Int)),
          ("perPage", .num (ipp : Int))]) svc, (page : Int), rfl,
        mkBody_getKey_params m _,
        pageParams_page params (page : Int) (ipp : Int),
        pageParams_perPage params (page : Int) (ipp : Int)⟩
      · obtain ⟨req', pg', hlast, hbody, hpage, hpp⟩ :=
          ih (dictUpdate params [("page", .num (page : Int)),
            ("perPage", .num (ipp : Int))]) (page + 1) hf
        refine ⟨req', pg', ?_, hbody, hpage, hpp⟩
        show (GravityZone.mkRequest e m _ svc :: (GravityZone.paginateAux
          ipp transport e m _ svc (page + 1) f).reqs).getLast? = some req'
        have hne : (GravityZone.paginateAux ipp transport e m
            (dictUpdate params [("page", .num (page : Int)),
              ("perPage", .num (ipp : Int))]) svc (page + 1) f).reqs
            ≠ [] := by
          intro hnil
          rw [hnil] at hlast
          exact Option.noConfusion hlast
        cases hreqs : (GravityZone.paginateAux ipp transport e m
            (dictUpdate params [("page", .num (page : Int)),
              ("perPage", .num (ipp : Int))]) svc (page + 1) f).reqs with
        | nil => exact absurd hreqs hne
        | cons z zs =>
          rw [hreqs] at hlast
          rw [List.getLast?_cons_cons]
          exact hlast
    · have hf0 : f = 0 := by omega
      subst hf0
      simp only [GravityZone.paginateAux]
      repeat' split
      all_goals exact ⟨GravityZone.mkRequest e m
        (dictUpdate params [("page", .num (page : Int)),
          ("perPage", .num (ipp : Int))]) svc, (page : Int), rfl,
        mkBody_getKey_params m _,
        pageParams_page params (page : Int) (ipp : Int),
        pageParams_perPage params (page : Int) (ipp : Int)⟩

/-- C10: `paginate` mutates the caller's params dict in place — after the
run, the dict is exactly the one sent with the most recent request
(`page`/`perPage` set to the values last sent, `perPage` being the
configured page size), while every other caller-supplied key keeps its
original value. -/
theorem c10_paginate_mutates_caller_params (ipp : Nat)
    (transport : Transport) (e m : String)
    (params : List (String × Json)) (svc : Option String) (fuel : Nat)
    (hfuel : 1 ≤ fuel) :
    (∀ k, k ≠ "page" → k ≠ "perPage" →
      dictLookup (GravityZone.paginate ipp transport e m params svc
        fuel).finalParams k = dictLookup params k)
    ∧ ∃ req pg,
        (GravityZone.paginate ipp transport e m params svc
          fuel).reqs.getLast? = some req
        ∧ req.body.getKey "params" = some (.obj (GravityZone.paginate ipp
            transport e m params svc fuel).finalParams)
        ∧ dictLookup (GravityZone.paginate ipp transport e m params svc
            fuel).finalParams "page" = some (.num pg)
        ∧ dictLookup (GravityZone.paginate ipp transport e m params svc
            fuel).finalParams "perPage" = some (.num (ipp : Int)) :=
  ⟨fun k h1 h2 => paginateAux_frame ipp transport e m svc fuel params 1 k
      h1 h2,
   paginateAux_last ipp transport e m svc fuel params 1 hfuel⟩

/-- C10 witness: a concrete run against the empty collection still leaves
`page`/`perPage` written into the caller's dict while `parentId` is
untouched. -/
theorem c10_witness :
    (∀ k, k ≠ "page" → k ≠ "perPage" →
      dictLookup (GravityZone.paginate 30 (pagedServer 30 0 0 []) "network"
        "getEndpointsList" [("parentId", .str "abc")] none
        5).finalParams k
      = dictLookup [("parentId", .str "abc")] k)
    ∧ ∃ req pg,
        (GravityZone.paginate 30 (pagedServer 30 0 0 []) "network"
          "getEndpointsList" [("parentId", .str "abc")] none
          5).reqs.getLast? = some req
        ∧ req.body.getKey "params" = some (.obj (GravityZone.paginate 30
            (pagedServer 30 0 0 []) "network" "getEndpointsList"
            [("parentId", .str "abc")] none 5).finalParams)
        ∧ dictLookup (GravityZone.paginate 30 (pagedServer 30 0 0 [])
            "network" "getEndpointsList" [("parentId", .str "abc")] none
            5).finalParams "page" = some (.num pg)
        ∧ dictLookup (GravityZone.paginate 30 (pagedServer 30 0 0 [])
            "network" "getEndpointsList" [("parentId", .str "abc")] none
            5).finalParams "perPage" = some (.num ((30 : Nat) : Int)) :=
  c10_paginate_mutates_caller_params 30 (pagedServer 30 0 0 []) "network"
    "getEndpointsList" [("parentId", .str "abc")] none 5 (by decide)

theorem pageJson_total (pp : Nat) (T P : Int) (l : List Json) (k : Int) :
    (pageJson pp T P l k).getKey "total" = some (.num T) := rfl

theorem pageJson_page (pp : Nat) (T P : Int) (l : List Json) (k : Int) :
    (pageJson pp T P l k).getKey "page" = some (.num k) := rfl

theorem pageJson_pagesCount (pp : Nat) (T P : Int) (l : List Json)
    (k : Int) :
    (pageJson pp T P l k).getKey "pagesCount" = some (.num P) := rfl

theorem pageJson_items (pp : Nat) (T P : Int) (l : List Json) (k : Int) :
    (pageJson pp T P l k).getKey "items"
      = some (.arr (pageChunk l pp k)) := rfl

/-- The page-`k` request `paginate` builds against any server carries
`page = k` in its params. -/
theorem pageReq_page (e m : String) (params : List (String × Json))
    (svc : Option String) (k pp : Int) :
    ((GravityZone.mkRequest e m (dictUpdate params [("page", .num k),
      ("perPage", .num pp)]) svc).body.getKey "params").bind
      (fun pj => pj.getKey "page") = some (.num k) := by
  rw [mkRequest_body, mkBody_getKey_params, Option.some_bind]
  exact pageParams_page params k pp

/-- Running the loop from page `k` against a well-behaved paged server
yields exactly the items from position `(k-1)·pp` on, in order, with one
request per remaining page, a clean finish, and `perPage = pp` on every
request. -/
theorem pagedServer_run (pp total pagesCount : Nat) (allItems : List Json)
    (e m : String) (svc : Option String)
    (hpp : 1 ≤ pp) (hlen : allItems.length = total) (hpos : 0 < total)
    (hle : total ≤ pagesCount * pp) :
    ∀ (fuel k : Nat) (params : List (String × Json)),
      1 ≤ k → k ≤ pagesCount → pagesCount - k < fuel →
      ((GravityZone.paginateAux pp (pagedServer pp (total : Int)
          (pagesCount : Int) allItems) e m params svc k fuel).items
        = allItems.drop ((k - 1) * pp))
      ∧ ((GravityZone.paginateAux pp (pagedServer pp (total : Int)
          (pagesCount : Int) allItems) e m params svc k fuel).reqs.length
        = pagesCount - k + 1)
      ∧ ((GravityZone.paginateAux pp (pagedServer pp (total : Int)
          (pagesCount : Int) allItems) e m params svc k fuel).outcome
        = .done)
      ∧ (∀ req ∈ (GravityZone.paginateAux pp (pagedServer pp (total : Int)
          (pagesCount : Int) allItems) e m params svc k fuel).reqs,
          (req.body.getKey "params").bind (fun pj => pj.getKey "perPage")
            = some (.num (pp : Int))) := by
  intro fuel
  induction fuel with
  | zero => intro k params h1 h2 h3; omega
  | succ f ih =>
    intro k params hk1 hkP hfuel
    have hserver : pagedServer pp (total : Int) (pagesCount : Int) allItems
        (GravityZone.mkRequest e m (dictUpdate params
          [("page", .num (k : Int)), ("perPage", .num (pp : Int))]) svc) 30
        = .ok ⟨200, some (.obj [("result", pageJson pp (total : Int)
            (pagesCount : Int) allItems (k : Int))])⟩ := by
      simp only [pagedServer, pageReq_page]
    have hcall : GravityZone.call (pagedServer pp (total : Int)
        (pagesCount : Int) allItems) e m (dictUpdate params
          [("page", .num (k : Int)), ("perPage", .num (pp : Int))]) svc 30
        = .ok (pageJson pp (total : Int) (pagesCount : Int) allItems
            (k : Int)) :=
      call_ok _ e m _ svc 30 _ _ _ hserver (by constructor <;> simp)
        rfl rfl
    have hT0 : (((total : Nat) : Int) == 0) = false :=
      beq_eq_false_iff_ne.mpr (by exact_mod_cast hpos.ne')
    have htoNat : (((k : Nat) : Int) - 1).toNat = k - 1 := by omega
    have hmulk : (k - 1) * pp + pp = k * pp := by
      have hk : k - 1 + 1 = k := by omega
      calc (k - 1) * pp + pp = (k - 1 + 1) * pp := (Nat.succ_mul _ _).symm
        _ = k * pp := by rw [hk]
    by_cases hkp : k = pagesCount
    · have hbeq : (((k : Nat) : Int) == ((pagesCount : Nat) : Int)) = true
        := by simp [hkp]
      have hchunk : pageChunk allItems pp (k : Int)
          = allItems.drop ((k - 1) * pp) := by
        unfold pageChunk
        rw [htoNat]
        apply List.take_of_length_le
        rw [List.length_drop, hlen]
        subst hkp
        omega
      simp only [GravityZone.paginateAux, hcall, pageJson_total,
        pageJson_page, pageJson_pagesCount, pageJson_items, Json.eqb_num,
        hT0, hbeq]
      simp only [Bool.false_eq_true, if_false, if_true]
      refine ⟨hchunk, by simp only [List.length_singleton]; omega, trivial,
        ?_⟩
      intro req hreq
      simp only [List.mem_singleton] at hreq
      subst hreq
      rw [mkRequest_body, mkBody_getKey_params, Option.some_bind]
      exact pageParams_perPage params (k : Int) (pp : Int)
    · have hbeq : (((k : Nat) : Int) == ((pagesCount : Nat) : Int)) = false
        := beq_eq_false_iff_ne.mpr (by exact_mod_cast hkp)
      have hklt : k < pagesCount := lt_of_le_of_ne hkP hkp
      obtain ⟨ihItems, ihLen, ihOut, ihPP⟩ :=
        ih (k + 1) (dictUpdate params [("page", .num (k : Int)),
          ("perPage", .num (pp : Int))]) (by omega) (by omega) (by omega)
      have hchunk : pageChunk allItems pp (k : Int)
          = (allItems.drop ((k - 1) * pp)).take pp := by
        unfold pageChunk
        rw [htoNat]
      have hdrop : allItems.drop (k * pp)
          = (allItems.drop ((k - 1) * pp)).drop pp := by
        rw [List.drop_drop, hmulk]
      simp only [GravityZone.paginateAux, hcall, pageJson_total,
        pageJson_page, pageJson_pagesCount, pageJson_items, Json.eqb_num,
        hT0, hbeq]
      simp only [Bool.false_eq_true, if_false]
      refine ⟨?_, ?_, ?_, ?_⟩
      · show pageChunk allItems pp (k : Int)
          ++ (GravityZone.paginateAux pp _ e m _ svc (k + 1) f).items
          = allItems.drop ((k - 1) * pp)
        rw [ihItems, hchunk]
        have : (k + 1 - 1) * pp = k * pp := by simp
        rw [this, hdrop]
        exact List.take_append_drop pp _
      · show ((GravityZone.mkRequest e m _ svc)
          :: (GravityZone.paginateAux pp _ e m _ svc (k + 1) f).reqs).length
          = pagesCount - k + 1
        rw [List.length_cons, ihLen]
        omega
      · exact ihOut
      · intro req hreq
        rcases List.mem_cons.mp hreq with hhead | htail
        · subst hhead
          rw [mkRequest_body, mkBody_getKey_params, Option.some_bind]
          exact pageParams_perPage params (k : Int) (pp : Int)
        · exact ihPP req htail

/-- C1 counterexample: with `total = 0` the claim's own hypothesis
`pagesCount = ceil(total / perPage)` makes `pagesCount = 0`
(`(0 + 30 - 1) / 30 = 0`), yet the loop still issues its first probe
request before seeing `total = 0`, so it issues 1 request, not
`pagesCount = 0` — "exactly pagesCount requests, never more" fails. -/
theorem c1_counterexample :
    (GravityZone.paginate 30 (pagedServer 30 0 0 []) "network"
      "getEndpointsList" [("parentId", .str "abc")] none 5).reqs.length = 1
    ∧ (0 + 30 - 1) / 30 = 0
    ∧ ¬((GravityZone.paginate 30 (pagedServer 30 0 0 []) "network"
      "getEndpointsList" [("parentId", .str "abc")] none 5).reqs.length
      = (0 + 30 - 1) / 30) :=
  ⟨rfl, rfl, fun h => Nat.one_ne_zero h⟩

/-- C1 amended: for every conforming page-response sequence with
`pagesCount = ceil(total / perPage)` and `total > 0`, paginate yields
exactly the `total` items, in server page order with each page's items in
array order, issues exactly `pagesCount` requests, and sends
`perPage` equal to the configured page size on every request.  (When
`total = 0` — where the ceiling makes `pagesCount = 0` — one probe
request is still issued, so the request count is `max 1 pagesCount` in
general.) -/
theorem c1_amended_pagination_exact (pp total pagesCount : Nat)
    (allItems : List Json) (e m : String) (params : List (String × Json))
    (svc : Option String) (fuel : Nat)
    (hpp : 1 ≤ pp) (hlen : allItems.length = total) (hpos : 0 < total)
    (hpc : pagesCount = (total + pp - 1) / pp)
    (hfuel : pagesCount ≤ fuel) :
    ((GravityZone.paginate pp (pagedServer pp (total : Int)
        (pagesCount : Int) allItems) e m params svc fuel).items = allItems)
    ∧ ((GravityZone.paginate pp (pagedServer pp (total : Int)
        (pagesCount : Int) allItems) e m params svc fuel).items.length
      = total)
    ∧ ((GravityZone.paginate pp (pagedServer pp (total : Int)
        (pagesCount : Int) allItems) e m params svc fuel).reqs.length
      = pagesCount)
    ∧ ((GravityZone.paginate pp (pagedServer pp (total : Int)
        (pagesCount : Int) allItems) e m params svc fuel).outcome = .done)
    ∧ (∀ req ∈ (GravityZone.paginate pp (pagedServer pp (total : Int)
        (pagesCount : Int) allItems) e m params svc fuel).reqs,
        (req.body.getKey "params").bind (fun pj => pj.getKey "perPage")
          = some (.num (pp : Int))) := by
  have hq := Nat.div_add_mod (total + pp - 1) pp
  have hr : (total + pp - 1) % pp < pp := Nat.mod_lt _ hpp
  have hcomm : pagesCount * pp = pp * pagesCount := Nat.mul_comm _ _
  have hle : total ≤ pagesCount * pp := by
    subst hpc
    omega
  have hpag1 : 1 ≤ pagesCount := by
    rcases Nat.eq_zero_or_pos pagesCount with h0 | h1
    · rw [h0, Nat.zero_mul] at hle
      omega
    · exact h1
  obtain ⟨hItems, hLen, hOut, hPP⟩ :=
    pagedServer_run pp total pagesCount allItems e m svc hpp hlen hpos hle
      fuel 1 params (Nat.le_refl 1) hpag1 (by omega)
  have hzero : (1 - 1) * pp = 0 := by simp
  rw [hzero, List.drop_zero] at hItems
  refine ⟨hItems, ?_, ?_, hOut, hPP⟩
  · show (GravityZone.paginateAux pp (pagedServer pp (total : Int)
        (pagesCount : Int) allItems) e m params svc 1 fuel).items.length
      = total
    rw [hItems, hlen]
  · show (GravityZone.paginateAux pp (pagedServer pp (total : Int)
        (pagesCount : Int) allItems) e m params svc 1 fuel).reqs.length
      = pagesCount
    rw [hLen]
    omega

/-- C1 witness: the spec's example scenario — 45 items, `perPage = 30`,
`pagesCount = 2` — yields all 45 items over exactly 2 requests, each
carrying `perPage = 30`. -/
theorem c1_witness :
    ((GravityZone.paginate 30 (pagedServer 30 (45 : Int) (2 : Int)
        ((List.range 45).map (fun i : Nat => Json.num i))) "network"
        "getEndpointsList" [("parentId", .str "abc")] none 5).items
      = (List.range 45).map (fun i : Nat => Json.num i))
    ∧ ((GravityZone.paginate 30 (pagedServer 30 (45 : Int) (2 : Int)
        ((List.range 45).map (fun i : Nat => Json.num i))) "network"
        "getEndpointsList" [("parentId", .str "abc")] none 5).items.length
      = 45)
    ∧ ((GravityZone.paginate 30 (pagedServer 30 (45 : Int) (2 : Int)
        ((List.range 45).map (fun i : Nat => Json.num i))) "network"
        "getEndpointsList" [("parentId", .str "abc")] none 5).reqs.length
      = 2)
    ∧ ((GravityZone.paginate 30 (pagedServer 30 (45 : Int) (2 : Int)
        ((List.range 45).map (fun i : Nat => Json.num i))) "network"
        "getEndpointsList" [("parentId", .str "abc")] none 5).outcome
      = .done)
    ∧ (∀ req ∈ (GravityZone.paginate 30 (pagedServer 30 (45 : Int)
        (2 : Int) ((List.range 45).map (fun i : Nat => Json.num i)))
        "network" "getEndpointsList" [("parentId", .str "abc")] none
        5).reqs,
        (req.body.getKey "params").bind (fun pj => pj.getKey "perPage")
          = some (.num ((30 : Nat) : Int))) :=
  c1_amended_pagination_exact 30 45 2
    ((List.range 45).map (fun i : Nat => Json.num i)) "network"
    "getEndpointsList" [("parentId", .str "abc")] none 5
    (by decide) (by rw [List.length_map, List.length_range]) (by decide)
    (by decide) (by decide)
